import Mathlib

/-!
Shallow embedding of `telegram_exception_alerts/alerter.py` (class `Alerter`):
construction (direct and from environment variables), message sending
(`send_message`, `custom_alert`) and the `exception_alert` decorator, together
with proofs of the specification's claims about them.
-/

/-- A single quote character, used in composed message strings. -/
def squote : String := String.singleton (Char.ofNat 39)

/-- Predicate `startsWith n h`: the char list `n` is an initial segment of `h`. -/
def startsWith : List Char → List Char → Bool
  | [], _ => true
  | _ :: _, [] => false
  | a :: as, b :: bs => a == b && startsWith as bs

/-- Predicate `substrAt n h`: the char list `n` occurs contiguously inside `h`
(Python `n in h` on strings). -/
def substrAt : List Char → List Char → Bool
  | n, [] => n.isEmpty
  | n, c :: t => startsWith n (c :: t) || substrAt n t

/-- Test `strContains hay needle`: Python `needle in hay` for strings
(substring containment; the empty string is contained in everything). -/
def strContains (hay needle : String) : Bool :=
  substrAt needle.data hay.data

theorem startsWith_self_append (n t : List Char) : startsWith n (n ++ t) = true := by
  induction n with
  | nil => rfl
  | cons a as ih => simp [startsWith, ih]

theorem substrAt_append_mid (s n t : List Char) :
    substrAt n (s ++ (n ++ t)) = true := by
  induction s with
  | nil =>
    cases hn : n ++ t with
    | nil =>
      have : n = [] := by
        cases n with
        | nil => rfl
        | cons a as => simp at hn
      simp [this, substrAt, List.isEmpty]
    | cons c cs =>
      simp only [List.nil_append, hn, substrAt]
      rw [← hn, startsWith_self_append]
      simp
  | cons a as ih =>
    simp only [List.cons_append, substrAt, List.append_eq]
    rw [ih]
    simp

theorem strContains_of_split (hay pre needle post : String)
    (h : hay = pre ++ (needle ++ post)) : strContains hay needle = true := by
  subst h
  show substrAt needle.data (pre ++ (needle ++ post)).data = true
  have h1 : (pre ++ (needle ++ post)).data = pre.data ++ (needle.data ++ post.data) := by
    simp [String.data_append]
  rw [h1]
  exact substrAt_append_mid pre.data needle.data post.data

/-- A Python collection of exception-type names as it appears in the filter
fields: either a list of strings (direct construction, default `[]`) or a
raw string (environment-derived construction stores the variable value as is). -/
inductive PyColl where
  | ofList (l : List String)
  | ofStr (s : String)
deriving DecidableEq

/-- Python truthiness of the collection (`if self.whitelist:`): a list is
truthy iff non-empty, a string is truthy iff non-empty. -/
def PyColl.truthy : PyColl → Bool
  | .ofList l => !l.isEmpty
  | .ofStr s => !s.isEmpty

/-- Python membership `x in coll`: element equality for a list,
substring containment for a string. -/
def PyColl.hasName : PyColl → String → Bool
  | .ofList l, x => l.contains x
  | .ofStr s, x => strContains s x

/-- State of an `Alerter` instance: bot token, default chat id and the two filters
(`__init__` stores the four constructor arguments). -/
structure Alerter where
  bot_token : String
  chat_id : Int
  whitelist : PyColl
  blacklist : PyColl
deriving DecidableEq

/-- Property `Alerter.base_url`: `https://api.telegram.org/bot{self.bot_token}`. -/
def base_url (a : Alerter) : String :=
  "https://api.telegram.org/bot" ++ a.bot_token

/-- JSON values appearing in the `sendMessage` request body. -/
inductive JsonVal where
  | jint (i : Int)
  | jstr (s : String)
  | jbool (b : Bool)
  | jnull
deriving DecidableEq

/-- Python `None`-or-string serialised into the JSON body. -/
def jsonOfOptStr : Option String → JsonVal
  | none => .jnull
  | some s => .jstr s

/-- One outbound HTTP request: method, URL and the JSON body as an ordered
field list (Python dicts keep insertion order). -/
structure HttpRequest where
  method : String
  url : String
  jsonFields : List (String × JsonVal)
deriving DecidableEq

/-- The request built by `Alerter.send_message`: URL `base_url + "/sendMessage"`,
POST, and the five-field `params` dict JSON-encoded. -/
def sendMessageRequest (a : Alerter) (chat_id : Int) (text : String)
    (parse_mode : Option String) (disable_web_page_preview : Bool)
    (disable_notification : Bool) : HttpRequest :=
  { method := "POST"
  , url := base_url a ++ "/sendMessage"
  , jsonFields :=
      [ ("chat_id", .jint chat_id)
      , ("text", .jstr text)
      , ("parse_mode", jsonOfOptStr parse_mode)
      , ("disable_web_page_preview", .jbool disable_web_page_preview)
      , ("disable_notification", .jbool disable_notification) ] }

/-- Method `Alerter.send_message`: builds the request, performs exactly one POST via
the transport (`requests.post`), and returns the transport's raw response.
The first component is the list of requests issued during the call. -/
def send_message {R : Type} (post : HttpRequest → R) (a : Alerter)
    (chat_id : Int) (text : String) (parse_mode : Option String)
    (disable_web_page_preview : Bool) (disable_notification : Bool) :
    List HttpRequest × R :=
  let req := sendMessageRequest a chat_id text parse_mode
      disable_web_page_preview disable_notification
  ([req], post req)

/-- Method `Alerter.custom_alert`: forwards everything to `send_message` with the
destination fixed to `self.chat_id`. -/
def custom_alert {R : Type} (post : HttpRequest → R) (a : Alerter)
    (text : String) (parse_mode : Option String)
    (disable_web_page_preview : Bool) (disable_notification : Bool) :
    List HttpRequest × R :=
  send_message post a a.chat_id text parse_mode
    disable_web_page_preview disable_notification

/-- Default of `parse_mode` in both `custom_alert` and `send_message`
(`parse_mode: str = None`). -/
def sendDefaultParseMode : Option String := none

/-- Default of `disable_web_page_preview` in both `custom_alert` and
`send_message` (`disable_web_page_preview: bool = True`). -/
def sendDefaultDisablePreview : Bool := true

/-- Default of `disable_notification` in both `custom_alert` and
`send_message` (`disable_notification: bool = False`). -/
def sendDefaultDisableNotify : Bool := false

/-- An intercepted Python exception, as observed by the decorator:
`type(e).__name__`, `str(e)` and the text of `traceback.format_exc()`. -/
structure Exc where
  typeName : String
  strRep : String
  tracebackText : String
deriving DecidableEq

/-- A Python function to be wrapped: its introspection metadata
(`__name__`, `__module__`, `__doc__`) and its behaviour on arguments of
type `σ` — either a normal return of type `α` or a raised exception. -/
structure PyFunc (σ α : Type) where
  name : String
  module : String
  doc : String
  impl : σ → Except Exc α

/-- The callable returned by the decorator: metadata fields plus the call
behaviour, which records the `send_message` calls issued (as the argument
tuples passed) alongside the outcome toward the caller. -/
structure WrappedPyFunc (σ α : Type) where
  name : String
  module : String
  doc : String
  call : σ → List (Int × String × Option String × Bool × Bool) × Except Exc α

/-- Embedding of `functools.wraps(func)` applied to `inner`: copies the wrapped function's
`__name__`, `__module__` and `__doc__` onto the wrapper. -/
def wraps {σ α : Type} (func : PyFunc σ α)
    (inner : σ → List (Int × String × Option String × Bool × Bool) × Except Exc α) :
    WrappedPyFunc σ α :=
  { name := func.name, module := func.module, doc := func.doc, call := inner }

/-- The alert text composed by `exception_alert`:
`f"<b>{type(e).__name__}('{e}')</b> in <u>{func.__name__}</u> from <u>{func.__module__}</u>\n\n<pre>{traceback.format_exc()}</pre>"`. -/
def alertText {σ α : Type} (e : Exc) (func : PyFunc σ α) : String :=
  "<b>" ++ e.typeName ++ "(" ++ squote ++ e.strRep ++ squote ++ ")</b> in <u>"
    ++ func.name ++ "</u> from <u>" ++ func.module ++ "</u>\n\n<pre>"
    ++ e.tracebackText ++ "</pre>"

/-- Method `Alerter.exception_alert`: wraps `func` with `@wraps(func)`; on a normal
return passes the value through with no send; on an exception applies the
whitelist check, then the blacklist check, sends at most one alert
(`self.send_message(self.chat_id, text=text, parse_mode="HTML")`, i.e. with
the defaults `disable_web_page_preview=True`, `disable_notification=False`)
and re-raises the original exception. -/
def exception_alert {σ α : Type} (a : Alerter) (func : PyFunc σ α) :
    WrappedPyFunc σ α :=
  wraps func (fun s =>
    match func.impl s with
    | .ok v => ([], .ok v)
    | .error e =>
      let error_type := e.typeName
      if a.whitelist.truthy && a.whitelist.hasName error_type then
        ([], .error e)
      else if !a.blacklist.truthy || a.blacklist.hasName error_type then
        ([(a.chat_id, alertText e func, some ("HTML"), true, false)], .error e)
      else
        ([], .error e))

/-- Dunder `Alerter.__call__`: applying the instance to a function is
`exception_alert`. -/
def alerterApply {σ α : Type} (a : Alerter) (func : PyFunc σ α) :
    WrappedPyFunc σ α :=
  exception_alert a func

/-- Numeric value of a digit char list, most significant first. -/
def digitsVal (l : List Char) : Nat :=
  l.foldl (fun acc c => acc * 10 + (c.toNat - 48)) 0

/-- Python `int(s)` on a string: strip surrounding whitespace, allow one
optional sign, then require a non-empty run of decimal digits; anything else
raises `ValueError`. -/
def pyInt (s : String) : Option Int :=
  let l := s.data.dropWhile Char.isWhitespace
  let l := ((l.reverse.dropWhile Char.isWhitespace).reverse)
  match l with
  | [] => none
  | c :: rest =>
    if c = Char.ofNat 45 then
      if !rest.isEmpty && rest.all Char.isDigit then some (-(digitsVal rest : Int)) else none
    else if c = Char.ofNat 43 then
      if !rest.isEmpty && rest.all Char.isDigit then some (digitsVal rest : Int) else none
    else
      if (c :: rest).all Char.isDigit then some (digitsVal (c :: rest) : Int) else none

/-- Python exceptions raised by `Alerter.from_environment`. -/
inductive PyError where
  | keyError (msg : String)
  | valueError (msg : String)
deriving DecidableEq

/-- Classmethod `Alerter.from_environment`: reads `ALERT_BOT_TOKEN` and `ALERT_CHAT_ID`
(re-raising a `KeyError` naming the variable when absent), reads the optional
`ALERT_BOT_WHITELIST` / `ALERT_BOT_BLACKLIST` via `os.environ.get(name, [])`
— keeping the raw string when set, the empty list otherwise — and constructs
the instance with `chat_id=int(chat_id)` (a `ValueError` when not numeric).
The environment is modelled as a map from variable names to values. -/
def from_environment (env : String → Option String) : Except PyError Alerter :=
  match env ("ALERT_BOT_TOKEN") with
  | none => .error (.keyError ("ALERT_BOT_TOKEN must be set in environment variables"))
  | some token =>
    match env ("ALERT_CHAT_ID") with
    | none => .error (.keyError ("ALERT_CHAT_ID must be set in environment variables"))
    | some chat_id =>
      let whitelist : PyColl := match env ("ALERT_BOT_WHITELIST") with
        | some s => .ofStr s
        | none => .ofList []
      let blacklist : PyColl := match env ("ALERT_BOT_BLACKLIST") with
        | some s => .ofStr s
        | none => .ofList []
      match pyInt chat_id with
      | none => .error (.valueError
          ("invalid literal for int() with base 10: " ++ squote ++ chat_id ++ squote))
      | some n => .ok { bot_token := token, chat_id := n
                      , whitelist := whitelist, blacklist := blacklist }

/-- Heap of Python list objects, indexed by reference (object identity). -/
structure PyHeap where
  cells : List (List String)
deriving DecidableEq

/-- Dereference a list object. -/
def PyHeap.read (h : PyHeap) (r : Nat) : List String :=
  h.cells.getD r []

/-- In-place update of a list object (e.g. `lst.append`). -/
def PyHeap.write (h : PyHeap) (r : Nat) (v : List String) : PyHeap :=
  ⟨h.cells.set r v⟩

/-- Allocate a fresh list object. -/
def PyHeap.alloc (h : PyHeap) (v : List String) : PyHeap × Nat :=
  (⟨h.cells ++ [v]⟩, h.cells.length)

/-- An `Alerter` instance with its filter fields as references to heap list
objects, as Python actually stores them. -/
structure AlerterObj where
  bot_token : String
  chat_id : Int
  whitelist : Nat
  blacklist : Nat
deriving DecidableEq

/-- Module-load time: Python evaluates `__init__`'s default expressions
`blacklist=[]` and `whitelist=[]` exactly once, producing two list objects
that live as attributes of the function. Returns (heap, blacklist default
ref, whitelist default ref). -/
def initDefaults : PyHeap × Nat × Nat :=
  let p1 := PyHeap.alloc ⟨[]⟩ []
  let p2 := PyHeap.alloc p1.1 []
  (p2.1, p1.2, p2.2)

/-- Constructor `Alerter.__init__` called with `blacklist` and `whitelist` omitted: the
instance's fields are bound to the very default objects, with no copy and
no fresh allocation. -/
def alerterInitOmitted (defaults : Nat × Nat) (bot_token : String)
    (chat_id : Int) : AlerterObj :=
  { bot_token := bot_token, chat_id := chat_id
  , blacklist := defaults.1, whitelist := defaults.2 }

/-- Mutation `a.whitelist.append(x)`: in-place mutation of the referenced list. -/
def appendWhitelist (h : PyHeap) (a : AlerterObj) (x : String) : PyHeap :=
  h.write a.whitelist (h.read a.whitelist ++ [x])

theorem strAppendAssoc (a b c : String) : a ++ b ++ c = a ++ (b ++ c) := by
  apply String.ext
  simp [String.data_append]

/-- Concrete alerter for witnesses: list whitelist `["A"]`, empty blacklist. -/
def wAlerterA : Alerter :=
  { bot_token := "t", chat_id := 7
  , whitelist := .ofList ["A"], blacklist := .ofList [] }

/-- Concrete exception for witnesses. -/
def wExcB : Exc := { typeName := "B", strRep := "b", tracebackText := "tb" }

/-- Concrete always-raising function for witnesses. -/
def wRaiseB : PyFunc Unit Unit :=
  { name := "f", module := "m", doc := "d", impl := fun _ => .error wExcB }

/-- Concrete always-returning function for witnesses. -/
def wReturn3 : PyFunc Unit Nat :=
  { name := "g", module := "m", doc := "d", impl := fun _ => .ok 3 }

/-- C1: filter decision on an intercepted exception of type name `T`:
a non-empty whitelist containing `T` suppresses the send (whatever the
blacklist holds); otherwise an empty blacklist or a blacklist containing `T`
yields exactly one send-message call; otherwise (non-empty blacklist without
`T`) no send occurs. -/
theorem filterDecision {σ α : Type} (a : Alerter) (f : PyFunc σ α) (s : σ)
    (e : Exc) (h : f.impl s = .error e) :
    ((a.whitelist.truthy = true ∧ a.whitelist.hasName e.typeName = true) →
      ((exception_alert a f).call s).1 = []) ∧
    (¬(a.whitelist.truthy = true ∧ a.whitelist.hasName e.typeName = true) →
      (a.blacklist.truthy = false ∨ a.blacklist.hasName e.typeName = true) →
      ((exception_alert a f).call s).1.length = 1) ∧
    (¬(a.whitelist.truthy = true ∧ a.whitelist.hasName e.typeName = true) →
      (a.blacklist.truthy = true ∧ a.blacklist.hasName e.typeName = false) →
      ((exception_alert a f).call s).1 = []) := by
  refine ⟨?_, ?_, ?_⟩
  · rintro ⟨h1, h2⟩
    simp [exception_alert, wraps, h, h1, h2]
  · intro hw hb
    simp only [exception_alert, wraps, h]
    rw [if_neg (by simpa using hw), if_pos (by simpa using hb)]
    rfl
  · rintro hw ⟨hb1, hb2⟩
    simp only [exception_alert, wraps, h]
    rw [if_neg (by simpa using hw), if_neg (by simp [hb1, hb2])]

/-- C1 witness: with whitelist `["A"]` and empty blacklist, an exception of
type `"B"` produces exactly one send-message call. -/
theorem filterDecision_witness :
    ((exception_alert wAlerterA wRaiseB).call ()).1.length = 1 :=
  (filterDecision wAlerterA wRaiseB () wExcB rfl).2.1
    (by decide) (Or.inl (by decide))

/-- C2: whenever the wrapped function raises, the wrapper re-raises the very
same exception (same type name, same message) toward the caller, whether or
not an alert was sent. -/
theorem reraiseUnchanged {σ α : Type} (a : Alerter) (f : PyFunc σ α) (s : σ)
    (e : Exc) (h : f.impl s = .error e) :
    ((exception_alert a f).call s).2 = .error e := by
  simp only [exception_alert, wraps, h]
  split
  · rfl
  · split <;> rfl

/-- C2 witness: the concrete raising function re-raises its exception. -/
theorem reraiseUnchanged_witness :
    ((exception_alert wAlerterA wRaiseB).call ()).2 = .error wExcB :=
  reraiseUnchanged wAlerterA wRaiseB () wExcB rfl

/-- C3: when the wrapped function returns normally, no send-message call
occurs and the wrapper returns the unwrapped function's value unchanged. -/
theorem successPassThrough {σ α : Type} (a : Alerter) (f : PyFunc σ α) (s : σ)
    (v : α) (h : f.impl s = .ok v) :
    (exception_alert a f).call s = ([], .ok v) := by
  simp [exception_alert, wraps, h]

/-- C3 witness: the concrete returning function passes `3` through with no
send. -/
theorem successPassThrough_witness :
    (exception_alert wAlerterA wReturn3).call () = ([], .ok 3) :=
  successPassThrough wAlerterA wReturn3 () 3 rfl

/-- C9: the wrapper returned by `exception_alert` reports the wrapped
function's `__name__`, `__module__` and `__doc__` (via `functools.wraps`). -/
theorem wrapsMetadata {σ α : Type} (a : Alerter) (f : PyFunc σ α) :
    (exception_alert a f).name = f.name ∧
    (exception_alert a f).module = f.module ∧
    (exception_alert a f).doc = f.doc :=
  ⟨rfl, rfl, rfl⟩

/-- C6: when the filter decision sends, exactly one send-message call is
issued, addressed to the dispatcher's default chat id with `parse_mode="HTML"`
(and the `send_message` defaults for the two flags), whose text contains the
exception's type name, its string representation, the wrapped function's
name and module, and the formatted traceback inside a `<pre>` block. -/
theorem alertMessageContents {σ α : Type} (a : Alerter) (f : PyFunc σ α)
    (s : σ) (e : Exc) (h : f.impl s = .error e)
    (hw : ¬(a.whitelist.truthy = true ∧ a.whitelist.hasName e.typeName = true))
    (hb : a.blacklist.truthy = false ∨ a.blacklist.hasName e.typeName = true) :
    ((exception_alert a f).call s).1
        = [(a.chat_id, alertText e f, some ("HTML"), true, false)] ∧
    strContains (alertText e f) e.typeName = true ∧
    strContains (alertText e f) e.strRep = true ∧
    strContains (alertText e f) f.name = true ∧
    strContains (alertText e f) f.module = true ∧
    strContains (alertText e f) ("<pre>" ++ e.tracebackText ++ "</pre>") = true := by
  refine ⟨?_, ?_, ?_, ?_, ?_, ?_⟩
  · simp only [exception_alert, wraps, h]
    rw [if_neg (by simpa using hw), if_pos (by simpa using hb)]
  · exact strContains_of_split _ ("<b>") e.typeName
      ("(" ++ squote ++ e.strRep ++ squote ++ ")</b> in <u>" ++ f.name
        ++ "</u> from <u>" ++ f.module ++ "</u>\n\n<pre>"
        ++ e.tracebackText ++ "</pre>")
      (by simp [alertText, strAppendAssoc])
  · exact strContains_of_split _
      ("<b>" ++ e.typeName ++ "(" ++ squote) e.strRep
      (squote ++ ")</b> in <u>" ++ f.name ++ "</u> from <u>" ++ f.module
        ++ "</u>\n\n<pre>" ++ e.tracebackText ++ "</pre>")
      (by simp [alertText, strAppendAssoc])
  · exact strContains_of_split _
      ("<b>" ++ e.typeName ++ "(" ++ squote ++ e.strRep ++ squote
        ++ ")</b> in <u>") f.name
      ("</u> from <u>" ++ f.module ++ "</u>\n\n<pre>"
        ++ e.tracebackText ++ "</pre>")
      (by simp [alertText, strAppendAssoc])
  · exact strContains_of_split _
      ("<b>" ++ e.typeName ++ "(" ++ squote ++ e.strRep ++ squote
        ++ ")</b> in <u>" ++ f.name ++ "</u> from <u>") f.module
      ("</u>\n\n<pre>" ++ e.tracebackText ++ "</pre>")
      (by simp [alertText, strAppendAssoc])
  · exact strContains_of_split _
      ("<b>" ++ e.typeName ++ "(" ++ squote ++ e.strRep ++ squote
        ++ ")</b> in <u>" ++ f.name ++ "</u> from <u>" ++ f.module
        ++ "</u>\n\n")
      ("<pre>" ++ e.tracebackText ++ "</pre>") ""
      (by
        have hsplit : ("</u>\n\n<pre>" : String) = "</u>\n\n" ++ "<pre>" := by
          decide
        have hemp : ∀ x : String, x ++ "" = x := by
          intro x
          apply String.ext
          simp [String.data_append]
        simp only [alertText, strAppendAssoc, hemp]
        rw [hsplit, strAppendAssoc])

/-- C6 witness: the concrete raising function under the empty-filter alerter
sends one HTML message whose text contains the expected pieces. -/
theorem alertMessageContents_witness :
    ((exception_alert
        { bot_token := "t", chat_id := 9
        , whitelist := .ofList [], blacklist := .ofList [] } wRaiseB).call ()).1
      = [(9, alertText wExcB wRaiseB, some ("HTML"), true, false)] ∧
    strContains (alertText wExcB wRaiseB) "B" = true :=
  ⟨(alertMessageContents
      { bot_token := "t", chat_id := 9
      , whitelist := .ofList [], blacklist := .ofList [] } wRaiseB () wExcB rfl
      (by decide) (Or.inl (by decide))).1,
   (alertMessageContents
      { bot_token := "t", chat_id := 9
      , whitelist := .ofList [], blacklist := .ofList [] } wRaiseB () wExcB rfl
      (by decide) (Or.inl (by decide))).2.1⟩

/-- C7: every `send_message` call issues exactly one POST request to
`https://api.telegram.org/bot<token>/sendMessage`, whose JSON body holds
exactly the five fields `chat_id`, `text`, `parse_mode`,
`disable_web_page_preview`, `disable_notification` as passed, and whose raw
transport response is returned to the caller uninterpreted. -/
theorem sendMessageWire {R : Type} (post : HttpRequest → R) (a : Alerter)
    (c : Int) (t : String) (pm : Option String) (dp dn : Bool) :
    (send_message post a c t pm dp dn).1
        = [sendMessageRequest a c t pm dp dn] ∧
    (sendMessageRequest a c t pm dp dn).method = "POST" ∧
    (sendMessageRequest a c t pm dp dn).url
        = "https://api.telegram.org/bot" ++ a.bot_token ++ "/sendMessage" ∧
    (sendMessageRequest a c t pm dp dn).jsonFields
        = [ ("chat_id", .jint c)
          , ("text", .jstr t)
          , ("parse_mode", jsonOfOptStr pm)
          , ("disable_web_page_preview", .jbool dp)
          , ("disable_notification", .jbool dn) ] ∧
    (send_message post a c t pm dp dn).2
        = post (sendMessageRequest a c t pm dp dn) :=
  ⟨rfl, rfl, rfl, rfl, rfl⟩

/-- C8: `custom_alert` is `send_message` with the destination fixed to the
configuration's `chat_id` — same parameters forwarded, same issued requests,
same returned response — and the two operations share the same defaults:
`parse_mode=None`, `disable_web_page_preview=True` (suppress preview),
`disable_notification=False` (do not silence). -/
theorem customAlertEquiv {R : Type} (post : HttpRequest → R) (a : Alerter)
    (t : String) (pm : Option String) (dp dn : Bool) :
    custom_alert post a t pm dp dn = send_message post a a.chat_id t pm dp dn ∧
    sendDefaultParseMode = none ∧
    sendDefaultDisablePreview = true ∧
    sendDefaultDisableNotify = false :=
  ⟨rfl, rfl, rfl, rfl⟩

/-- C10: environment-derived construction stores a set filter variable as the
raw string, so the membership test used by the decorator is substring
containment; in particular any substring of the variable's value counts as a
member. -/
theorem envFilterIsRawString (env : String → Option String)
    (tok cid w : String) (n : Int)
    (htok : env ("ALERT_BOT_TOKEN") = some tok)
    (hcid : env ("ALERT_CHAT_ID") = some cid)
    (hn : pyInt cid = some n)
    (hw : env ("ALERT_BOT_WHITELIST") = some w) :
    ∃ a : Alerter, from_environment env = .ok a ∧
      a.whitelist = .ofStr w ∧
      ∀ t : String, a.whitelist.hasName t = strContains w t := by
  refine ⟨{ bot_token := tok, chat_id := n, whitelist := .ofStr w
          , blacklist := match env ("ALERT_BOT_BLACKLIST") with
              | some s => .ofStr s
              | none => .ofList [] }, ?_, rfl, fun t => rfl⟩
  simp [from_environment, htok, hcid, hn, hw]

/-- C10 witness: with `ALERT_BOT_WHITELIST="KeyError"`, the resulting filter
is the raw string and `"Error"` — a mere substring — tests as a member. -/
theorem envFilterIsRawString_witness :
    (∃ a : Alerter,
        from_environment (fun k =>
          if k = "ALERT_BOT_TOKEN" then some ("tk")
          else if k = "ALERT_CHAT_ID" then some ("5")
          else if k = "ALERT_BOT_WHITELIST" then some ("KeyError")
          else none) = .ok a ∧
        a.whitelist = .ofStr ("KeyError") ∧
        ∀ t : String, a.whitelist.hasName t = strContains ("KeyError") t) ∧
    PyColl.hasName (.ofStr ("KeyError")) "Error" = true :=
  ⟨envFilterIsRawString
      (fun k =>
        if k = "ALERT_BOT_TOKEN" then some ("tk")
        else if k = "ALERT_CHAT_ID" then some ("5")
        else if k = "ALERT_BOT_WHITELIST" then some ("KeyError")
        else none)
      ("tk") ("5") ("KeyError") 5 rfl rfl (by decide) rfl,
   by decide⟩

/-- C5: environment-derived construction fails with a `KeyError` naming the
missing variable when `ALERT_BOT_TOKEN` or `ALERT_CHAT_ID` is absent; a
non-numeric chat id is a `ValueError`; on success the instance holds the
token and the integer-parsed chat id. -/
theorem fromEnvironmentSpec (env : String → Option String) :
    (env ("ALERT_BOT_TOKEN") = none →
      from_environment env
        = .error (.keyError ("ALERT_BOT_TOKEN must be set in environment variables"))) ∧
    (∀ tok, env ("ALERT_BOT_TOKEN") = some tok → env ("ALERT_CHAT_ID") = none →
      from_environment env
        = .error (.keyError ("ALERT_CHAT_ID must be set in environment variables"))) ∧
    (∀ tok cid, env ("ALERT_BOT_TOKEN") = some tok → env ("ALERT_CHAT_ID") = some cid →
      pyInt cid = none →
      ∃ m, from_environment env = .error (.valueError m)) ∧
    (∀ tok cid n, env ("ALERT_BOT_TOKEN") = some tok → env ("ALERT_CHAT_ID") = some cid →
      pyInt cid = some n →
      ∃ a : Alerter, from_environment env = .ok a ∧
        a.bot_token = tok ∧ a.chat_id = n) := by
  refine ⟨?_, ?_, ?_, ?_⟩
  · intro h
    simp [from_environment, h]
  · intro tok h1 h2
    simp [from_environment, h1, h2]
  · intro tok cid h1 h2 h3
    refine ⟨"invalid literal for int() with base 10: " ++ squote ++ cid ++ squote, ?_⟩
    simp [from_environment, h1, h2, h3]
  · intro tok cid n h1 h2 h3
    refine ⟨{ bot_token := tok, chat_id := n
            , whitelist := match env ("ALERT_BOT_WHITELIST") with
                | some s => .ofStr s
                | none => .ofList []
            , blacklist := match env ("ALERT_BOT_BLACKLIST") with
                | some s => .ofStr s
                | none => .ofList [] }, ?_, rfl, rfl⟩
    simp [from_environment, h1, h2, h3]

/-- C5 witness: the empty environment fails naming `ALERT_BOT_TOKEN`; an
environment with a non-numeric chat id raises a `ValueError`; a complete
environment yields an instance holding the token and parsed chat id. -/
theorem fromEnvironmentSpec_witness :
    (from_environment (fun _ => none)
      = .error (.keyError ("ALERT_BOT_TOKEN must be set in environment variables"))) ∧
    (∃ m, from_environment (fun k =>
        if k = "ALERT_BOT_TOKEN" then some ("tk")
        else if k = "ALERT_CHAT_ID" then some ("oops") else none)
      = .error (.valueError m)) ∧
    (∃ a : Alerter, from_environment (fun k =>
        if k = "ALERT_BOT_TOKEN" then some ("tk")
        else if k = "ALERT_CHAT_ID" then some ("42") else none)
      = .ok a ∧ a.bot_token = "tk" ∧ a.chat_id = 42) :=
  ⟨(fromEnvironmentSpec (fun _ => none)).1 rfl,
   (fromEnvironmentSpec (fun k =>
        if k = "ALERT_BOT_TOKEN" then some ("tk")
        else if k = "ALERT_CHAT_ID" then some ("oops") else none)).2.2.1
      ("tk") ("oops") rfl rfl (by decide),
   (fromEnvironmentSpec (fun k =>
        if k = "ALERT_BOT_TOKEN" then some ("tk")
        else if k = "ALERT_CHAT_ID" then some ("42") else none)).2.2.2
      ("tk") ("42") 42 rfl rfl (by decide)⟩

/-- C4, counterexample to the claim (the code keeps Python's shared mutable
default arguments): two instances constructed with the filter arguments
omitted share the single default list object, so appending to the first
instance's whitelist is visible through the second instance's whitelist. -/
theorem sharedDefaultCounterexample :
    (initDefaults.1.read
        (alerterInitOmitted (initDefaults.2.1, initDefaults.2.2) "t2" 2).whitelist
      = []) ∧
    ((appendWhitelist initDefaults.1
        (alerterInitOmitted (initDefaults.2.1, initDefaults.2.2) "t1" 1)
        "ValueError").read
      (alerterInitOmitted (initDefaults.2.1, initDefaults.2.2) "t2" 2).whitelist
      = ["ValueError"]) := by
  constructor <;> rfl
